import Mathlib

/-!
Verification development for the BilibiliHistoryFetcher incremental feed
crawler (src/routers/dynamic.py, src/scripts/dynamic_db.py,
src/scripts/dynamic_media.py).

The Python code is shallowly embedded: JSON values become the inductive
`JVal`, the SQLite table `dynamic_core` becomes a list of `CoreRow`
records, the remote feed API and the media downloads become explicit
oracle parameters, and the `auto_fetch_all` crawl loop becomes a
fuel-indexed recursive function over an explicit loop state.
-/

namespace BiliDyn

/-- JSON-like values as delivered by the remote feed API and consumed by
`dynamic.py` / `dynamic_db.py` / `dynamic_media.py`. -/
inductive JVal where
  | null : JVal
  | jbool : Bool → JVal
  | num : Int → JVal
  | str : String → JVal
  | arr : List JVal → JVal
  | obj : List (String × JVal) → JVal
  deriving Repr

/-- Python truthiness (`bool(v)`) on embedded JSON values:
None, False, 0, "", [], {} are falsy. -/
def JVal.truthy : JVal → Bool
  | .null => false
  | .jbool b => b
  | .num n => n != 0
  | .str s => s != ""
  | .arr l => !l.isEmpty
  | .obj l => !l.isEmpty

/-- Dictionary lookup `d.get(k)` with default None: on a JSON object the
first binding of the key, `null` when absent; the source only applies
`.get` to values that are dicts, so non-objects yield `null`. -/
def JVal.get : JVal → String → JVal
  | .obj fields, k =>
    match fields.find? (fun p => p.1 == k) with
    | some p => p.2
    | none => .null
  | _, _ => .null

/-- Python key-membership test `k in d` on a JSON object. -/
def JVal.hasKey : JVal → String → Bool
  | .obj fields, k => fields.any (fun p => p.1 == k)
  | _, _ => false

/-- Check `isinstance(v, dict)`. -/
def JVal.isObj : JVal → Bool
  | .obj _ => true
  | _ => false

/-- Check `isinstance(v, str)`. -/
def JVal.isStr : JVal → Bool
  | .str _ => true
  | _ => false

/-- Check `isinstance(v, list)`. -/
def JVal.isArr : JVal → Bool
  | .arr _ => true
  | _ => false

/-- Equality tests the source performs on JSON values are string
comparisons against literals (`mod.get("module_type") == "..."`) and
None checks (`is not None`); this BEq captures exactly those. -/
instance : BEq JVal where
  beq a b :=
    match a, b with
    | .str s, .str t => s == t
    | .null, .null => true
    | _, _ => false

/-- Python `a or b` on JSON values: `a` when truthy, else `b`. -/
def pyOr (a b : JVal) : JVal := if a.truthy then a else b

/-- Python `str(v)` on the scalar JSON values the source applies it to
(`str(item.get("id"))`, `str(id_str)`); notably `str(None) = "None"`.
Containers are given fixed placeholder reprs: no claim evaluates `str`
on a container. -/
def pyStr : JVal → String
  | .null => "None"
  | .jbool true => "True"
  | .jbool false => "False"
  | .num n => toString n
  | .str s => s
  | .arr _ => "<list>"
  | .obj _ => "<dict>"

/-- Python `int(v)` wrapped in try/except as in `dynamic_db._to_int`:
None stays None, ints pass through, numeric strings parse, `True`/`False`
become 1/0, anything else yields None. -/
def pyToInt : JVal → Option Int
  | .null => none
  | .num n => some n
  | .jbool b => some (if b then 1 else 0)
  | .str s => s.toInt?
  | _ => none

/-- Resolution of the item id used identically at dynamic.py:384,
dynamic.py:455 and dynamic_db.py:211:
`item.get("id_str") or item.get("basic", {}).get("id_str") or str(item.get("id"))`.
The result is the raw Python value (string conversion is applied at use
sites via `pyStr`). -/
def resolvedId (item : JVal) : JVal :=
  pyOr (item.get "id_str")
    (pyOr ((item.get "basic").get "id_str") (.str (pyStr (item.get "id"))))

/-- The string form `str(id_str)` of the resolved id. -/
def itemIdStr (item : JVal) : String := pyStr (resolvedId item)

/-- One row of the `dynamic_core` SQLite table (dynamic_db.py:24-53).
Nullable TEXT columns whose bound Python value may be any JSON scalar are
kept as `JVal` (with `JVal.null` standing for SQL NULL); columns the code
explicitly narrows are typed accordingly.  `articleCovers` stores the
covers list itself in place of its `json.dumps` serialization. -/
structure CoreRow where
  hostMid : String
  idStr : String
  type : JVal
  visible : Option Int
  publishTs : Option Int
  commentIdStr : JVal
  commentType : Option Int
  ridStr : JVal
  txt : JVal
  authorName : JVal
  bvid : JVal
  title : JVal
  cover : JVal
  descr : JVal
  articleTitle : JVal
  articleCovers : Option (List JVal)
  opusTitle : JVal
  opusSummaryText : JVal
  mediaLocals : Option String
  mediaCount : Int
  liveMediaLocals : Option String
  liveMediaCount : Int
  fetchTime : Int
  deriving Repr

/-- The Feed Store: the `dynamic_core` table as a list of rows (the
author/stat side tables are not touched by any claim and are omitted). -/
abbrev Db := List CoreRow

/-- Embeds `dynamic_core_exists` (dynamic_db.py:153-162): membership of
`(host_mid, id_str)` in the core table. -/
def dynamic_core_exists (db : Db) (hostMid idStr : String) : Bool :=
  db.any (fun r => r.hostMid == hostMid && r.idStr == idStr)

/-- Normalization of the heterogeneous `modules` shape
(dynamic_db.py:189-209): `modules` may be a keyed object or an array of
typed entries; returns (module_author, module_stat, module_dynamic). -/
def extractModules (modulesRaw : JVal) : JVal × JVal × JVal :=
  match modulesRaw with
  | .obj _ =>
    (modulesRaw.get "module_author", modulesRaw.get "module_stat",
     modulesRaw.get "module_dynamic")
  | .arr mods =>
    let step := fun (acc : JVal × JVal × JVal) (mod : JVal) =>
      let (ma, ms, md) := acc
      if !mod.isObj then acc
      else
        let mtype := mod.get "module_type"
        if mtype == JVal.str "MODULE_TYPE_AUTHOR" && !ma.truthy then
          (mod.get "module_author", ms, md)
        else if mtype == JVal.str "MODULE_TYPE_STAT" && !ms.truthy then
          (ma, mod.get "module_stat", md)
        else if mtype == JVal.str "MODULE_TYPE_DYNAMIC" && !md.truthy then
          (ma, ms, mod.get "module_dynamic")
        else acc
    mods.foldl step (.obj [], .obj [], .obj [])
  | _ => (.obj [], .obj [], .obj [])

/-- Fallback scan for the body text over an array-shaped `modules`
(dynamic_db.py:256-261): take the `module_desc.text` of each entry,
stopping at the first truthy one. -/
def scanModuleDescTxt : List JVal → JVal → JVal
  | [], t => t
  | mod :: rest, t =>
    if mod.isObj && (mod.get "module_desc").isObj then
      let t' := (mod.get "module_desc").get "text"
      if t'.truthy then t' else scanModuleDescTxt rest t'
    else scanModuleDescTxt rest t

/-- Embeds `save_normalized_dynamic_item` (dynamic_db.py:174-354)
restricted to its `dynamic_core` effect.  Field extraction follows the
source line by line; the upsert's ON CONFLICT clause sets every non-key
column from `excluded`, i.e. replaces the row.  In particular the bound
values for `media_locals`, `live_media_locals` are always NULL and
`media_count`, `live_media_count` are always 0 (dynamic_db.py:263-264,
348-352).  The avatar-walking block (dynamic_db.py:230-247) only assigns
a variable that is never read and is omitted. -/
def save_normalized_dynamic_item (db : Db) (hostMid : String)
    (fetchTime : Int) (item : JVal) : Db :=
  let basic := if (item.get "basic").isObj then item.get "basic" else .obj []
  let modulesRaw := item.get "modules"
  let (moduleAuthor, _moduleStat, moduleDynamic) := extractModules modulesRaw
  let idv := resolvedId item
  if !idv.truthy then db
  else
    let idStr := pyStr idv
    let publishTs := pyToInt (moduleAuthor.get "pub_ts")
    let visibleV := item.get "visible"
    let visible : Option Int :=
      if visibleV.truthy then some 1
      else if visibleV != JVal.null then some 0 else none
    let authorName := pyOr (moduleAuthor.get "name") (moduleAuthor.get "uname")
    let descObj := if moduleDynamic.isObj then moduleDynamic.get "desc" else .null
    let txt0 : JVal :=
      if descObj.isObj then descObj.get "text"
      else if descObj.isStr then descObj
      else .null
    let txt : JVal :=
      if !txt0.truthy then
        match modulesRaw with
        | .arr mods => scanModuleDescTxt mods txt0
        | _ => txt0
      else txt0
    let major := if moduleDynamic.isObj then moduleDynamic.get "major" else .null
    let arc := if (major.get "archive").isObj then major.get "archive" else .null
    let ar := if (major.get "article").isObj then major.get "article" else .null
    let opus := if (major.get "opus").isObj then major.get "opus" else .null
    let archiveDesc := arc.get "desc"
    let covers := ar.get "covers"
    let articleCovers : Option (List JVal) :=
      match covers with
      | .arr l => if l.isEmpty then none else some l
      | _ => none
    let summary := opus.get "summary"
    let opusSummaryText :=
      if summary.isObj then summary.get "text" else .null
    let row : CoreRow := {
      hostMid := hostMid
      idStr := idStr
      type := item.get "type"
      visible := visible
      publishTs := publishTs
      commentIdStr := basic.get "comment_id_str"
      commentType := pyToInt (basic.get "comment_type")
      ridStr := basic.get "rid_str"
      txt := txt
      authorName := authorName
      bvid := arc.get "bvid"
      title := arc.get "title"
      cover := arc.get "cover"
      descr := if archiveDesc.isStr then archiveDesc else .null
      articleTitle := ar.get "title"
      articleCovers := articleCovers
      opusTitle := opus.get "title"
      opusSummaryText := opusSummaryText
      mediaLocals := none
      mediaCount := 0
      liveMediaLocals := none
      liveMediaCount := 0
      fetchTime := fetchTime }
    if db.any (fun r => r.hostMid == hostMid && r.idStr == idStr) then
      db.map (fun r =>
        if r.hostMid == hostMid && r.idStr == idStr then row else r)
    else db ++ [row]

/-- Python `",".join(l)` (with the source's `if l else ""` convention
giving `""` on the empty list). -/
def joinComma : List String → String
  | [] => ""
  | [s] => s
  | s :: rest => s ++ "," ++ joinComma rest

/-- Embeds the media-path write-back UPDATE (dynamic.py:532-556): on the
row keyed by (host_mid, id_str), set `media_locals` /
`live_media_locals` only when NULL or empty (write-once-if-empty CASE),
and set `live_media_count` unconditionally. -/
def writeBackMedia (db : Db) (hostMid idStr : String)
    (predictedLocals livePredictedLocals : List String) : Db :=
  db.map (fun r =>
    if r.hostMid == hostMid && r.idStr == idStr then
      { r with
        mediaLocals :=
          if r.mediaLocals = none || r.mediaLocals = some "" then
            some (joinComma predictedLocals)
          else r.mediaLocals
        liveMediaLocals :=
          if r.liveMediaLocals = none || r.liveMediaLocals = some "" then
            some (joinComma livePredictedLocals)
          else r.liveMediaLocals
        liveMediaCount := (livePredictedLocals.length : Int) }
    else r)

/-- One item's database effect inside the crawl loop's persistence pass
(dynamic.py:453-558): resolve the id (skip when falsy), harvest media
(the per-item predicted local path lists produced by the downloads are
supplied by the `media` oracle, and are empty when `save_media` is off),
run the core upsert, then run the write-back UPDATE when either list is
non-empty. -/
def ingestItem (hostMid : String) (fetchTime : Int) (saveMedia : Bool)
    (media : JVal → List String × List String) (db : Db) (item : JVal) : Db :=
  let idv := resolvedId item
  if !idv.truthy then db
  else
    let ids := pyStr idv
    let (predicted, livePredicted) :=
      if saveMedia then media item else ([], [])
    let db1 := save_normalized_dynamic_item db hostMid fetchTime item
    if !predicted.isEmpty || !livePredicted.isEmpty then
      writeBackMedia db1 hostMid ids predicted livePredicted
    else db1

/-- Containment of `sub` as a contiguous run inside `l`
(Python `sub in s` on strings, via char lists). -/
def seqContains (sub : List Char) : List Char → Bool
  | [] => sub.isEmpty
  | c :: rest => sub.isPrefixOf (c :: rest) || seqContains sub rest

/-- Python substring test `sub in s`. -/
def strContainsSub (s sub : String) : Bool := seqContains sub.toList s.toList

/-- Python `s.lower()`, character-wise (ASCII-relevant here). -/
def strToLower (s : String) : String := String.mk (s.toList.map Char.toLower)

/-- Python `s.startswith(pre)`. -/
def strStartsWith (s pre : String) : Bool := pre.toList.isPrefixOf s.toList

/-- Embeds `_looks_like_image_url` (dynamic_media.py:11-22): an absolute
http(s) URL with a known image extension anywhere in it, or containing
the bilibili image-CDN fragment `/bfs/`. -/
def _looks_like_image_url (url : String) : Bool :=
  if !(strStartsWith url "http://" || strStartsWith url "https://") then false
  else
    let lower := strToLower url
    if [".jpg", ".jpeg", ".png", ".gif", ".webp"].any
        (fun e => strContainsSub lower e) then true
    else strContainsSub lower "/bfs/"

/-- Label ancestor-key context (dynamic_media.py:30-31). -/
def isLabelContext (pl : List String) : Bool := pl.any (· == "label")

/-- Avatar/face ancestor-key context (dynamic_media.py:33-34). -/
def isAvatarContext (pl : List String) : Bool :=
  pl.any (fun p => p == "avatar" || p == "face" || p == "avatar_subscript_url")

/-- Decoration-card ancestor-key context (dynamic_media.py:36-37). -/
def isDecorateCardContext (pl : List String) : Bool :=
  pl.any (fun p => p == "decorate" || p == "decorate_card" || p == "decoration_card")

/-- Interaction ancestor-key context (dynamic_media.py:39-40). -/
def isInteractionContext (pl : List String) : Bool :=
  pl.any (· == "module_interaction")

/-- Emoji-node test on the current value (dynamic_media.py:42-53): a
rich-text emoji node, or a dict whose `emoji` sub-dict carries both
`icon_url` and `text` keys. -/
def isEmojiNode (v : JVal) : Bool :=
  match v with
  | .obj _ =>
    (v.get "type" == JVal.str "RICH_TEXT_NODE_TYPE_EMOJI") ||
    (v.hasKey "emoji" && (v.get "emoji").isObj &&
      (v.get "emoji").hasKey "icon_url" && (v.get "emoji").hasKey "text")
  | _ => false

/-- The lowered ancestor-key path lies in one of the excluded contexts
(the early-return disjunction of dynamic_media.py:56, minus the
emoji test which inspects the value, not the path). -/
def excludedPath (pl : List String) : Bool :=
  isLabelContext pl || isAvatarContext pl || isDecorateCardContext pl ||
    isInteractionContext pl

/-- Dict keys skipped outright by the walk (dynamic_media.py:63-69). -/
def skippedLabelKeys : List String :=
  ["img_label_uri_hans", "img_label_uri_hans_static",
   "img_label_uri_hant", "img_label_uri_hant_static", "label_theme"]

/-- Set-insertion into the collector, modelling `collector.add` with a
deterministic first-seen order. -/
def insertUrl (acc : List String) (s : String) : List String :=
  if acc.contains s then acc else acc ++ [s]

mutual
/-- Embeds `_walk_collect_urls` (dynamic_media.py:25-84): recursive walk
carrying the ancestor-key path; returns early (collecting nothing below)
inside label/avatar/decoration/interaction contexts and on emoji nodes;
collects string values that look like image URLs, additionally dropping
any URL containing a face path fragment. -/
def _walk_collect_urls (v : JVal) (path : List String)
    (acc : List String) : List String :=
  let pl := path.map strToLower
  if excludedPath pl || isEmojiNode v then acc
  else
    match v with
    | .obj fields => walkFields fields path acc
    | .arr elems => walkElems elems 0 path acc
    | .str s =>
      if _looks_like_image_url s then
        let low := strToLower s
        if strContainsSub low "/bfs/face/" || strContainsSub low "/face/" then
          acc
        else insertUrl acc s
      else acc
    | _ => acc
termination_by structural v

/-- Walk over a dict's bindings in insertion order, skipping the known
label-image keys (dynamic_media.py:60-72). -/
def walkFields (fields : List (String × JVal)) (path : List String)
    (acc : List String) : List String :=
  match fields with
  | [] => acc
  | (k, v) :: rest =>
    let acc' :=
      if skippedLabelKeys.contains (strToLower k) then acc
      else _walk_collect_urls v (path ++ [k]) acc
    walkFields rest path acc'
termination_by structural fields

/-- Walk over a list's elements, extending the path with the stringified
index (dynamic_media.py:73-75). -/
def walkElems (elems : List JVal) (idx : Nat) (path : List String)
    (acc : List String) : List String :=
  match elems with
  | [] => acc
  | v :: rest =>
    walkElems rest (idx + 1) path (_walk_collect_urls v (path ++ [toString idx]) acc)
termination_by structural elems
end

/-- Embeds `collect_image_urls` (dynamic_media.py:87-91): the walk from
an empty path and an empty collector (the Python `list(set)` order is
fixed here to first-seen order; the claims concern membership only). -/
def collect_image_urls (item : JVal) : List String :=
  _walk_collect_urls item [] []

/-- Environment for the media downloaders: the local filesystem
(`os.path.exists` on a predicted path) and the HTTP transport
(`session.get`, yielding a status code and a content-type header, or
`none` for a raised transport exception). -/
structure NetFs where
  fileExists : String → Bool
  get : String → Option (Nat × String)

/-- Path component of a URL, as `urlparse(url).path` on the absolute
http(s) URLs the source feeds it: everything from the first slash after
the authority, cut before any query or fragment. -/
def urlPath (url : String) : String :=
  let rest :=
    if strStartsWith url "http://" then url.toList.drop 7
    else if strStartsWith url "https://" then url.toList.drop 8
    else url.toList
  let afterHost := rest.dropWhile (fun c => c != '/')
  String.mk (afterHost.takeWhile (fun c => c != '?' && c != '#'))

/-- Final path component, as `os.path.basename`. -/
def baseNameOf (p : String) : String :=
  String.mk ((p.toList.reverse.takeWhile (fun c => c != '/')).reverse)

/-- Extension part of `os.path.splitext` on a basename: from the last
dot, empty when there is no dot or only a leading dot. -/
def extPart (b : String) : String :=
  let cs := b.toList
  let afterDotRev := cs.reverse.takeWhile (fun c => c != '.')
  if afterDotRev.length = cs.length then ""
  else if afterDotRev.length + 1 = cs.length && cs.head? = some '.' then ""
  else String.mk ('.' :: afterDotRev.reverse)

/-- Stand-in for `_hash_name` (dynamic_media.py:154-155): the MD5 hex
digest is modelled by a fixed deterministic digest of the URL — only its
determinism and its use as a filename matter to the code. -/
def _hash_name (url : String) : String :=
  "h" ++ toString (url.toList.foldl (fun a c => a * 131 + c.toNat) 7)

/-- Embeds `_guess_extension` (dynamic_media.py:145-151). -/
def _guess_extension (url : String) : String :=
  let ext := strToLower (extPart (baseNameOf (urlPath url)))
  if [".jpg", ".jpeg", ".png", ".gif", ".webp"].contains ext then ext
  else ".jpg"

/-- Embeds `predict_image_path` (dynamic_media.py:158-169): the local
file name is determined from the URL basename before any download, with
a digest + guessed extension fallback when the basename is unusable. -/
def predict_image_path (url saveDir : String) : String :=
  let base := baseNameOf (urlPath url)
  let base := if base = "" then _hash_name url ++ _guess_extension url else base
  let base := if extPart base = "" then base ++ _guess_extension url else base
  saveDir ++ "/" ++ base

/-- Embeds `_download_one` (dynamic_media.py:172-188).  Returns the
source's `(url, save_path, success)` triple together with the list of
URLs for which a network request was issued.  The GET is unconditional;
success requires status 200 and an image content type; a raised
exception yields failure. -/
def _download_one (env : NetFs) (url saveDir : String) :
    (String × String × Bool) × List String :=
  let savePath := predict_image_path url saveDir
  match env.get url with
  | none => ((url, savePath, false), [url])
  | some (status, ctype) =>
    if status != 200 then ((url, savePath, false), [url])
    else if !strContainsSub (strToLower ctype) "image" then
      ((url, savePath, false), [url])
    else ((url, savePath, true), [url])

/-- Embeds `_download_live_media` (dynamic_media.py:211-249): predicted
digest-based names for both legs; each leg is requested only when its
file does not already exist; a non-200 status fails the leg and
continues; a raised exception aborts the remaining legs with overall
failure; the pair succeeds iff both legs do.  Returns the source's
result tuple together with the issued-request list. -/
def _download_live_media (env : NetFs) (imageUrl videoUrl saveDir : String) :
    (String × String × String × String × Bool) × List String :=
  let imagePath := saveDir ++ "/" ++ (_hash_name imageUrl ++ _guess_extension imageUrl)
  let videoPath := saveDir ++ "/" ++ (_hash_name videoUrl ++ ".mp4")
  if env.fileExists imagePath then
    if env.fileExists videoPath then
      ((imageUrl, videoUrl, imagePath, videoPath, true), [])
    else
      match env.get videoUrl with
      | none => ((imageUrl, videoUrl, imagePath, videoPath, false), [videoUrl])
      | some (status, _) =>
        ((imageUrl, videoUrl, imagePath, videoPath, status == 200), [videoUrl])
  else
    match env.get imageUrl with
    | none => ((imageUrl, videoUrl, imagePath, videoPath, false), [imageUrl])
    | some (istatus, _) =>
      if env.fileExists videoPath then
        ((imageUrl, videoUrl, imagePath, videoPath, istatus == 200), [imageUrl])
      else
        match env.get videoUrl with
        | none =>
          ((imageUrl, videoUrl, imagePath, videoPath, false),
            [imageUrl, videoUrl])
        | some (vstatus, _) =>
          ((imageUrl, videoUrl, imagePath, videoPath,
            istatus == 200 && vstatus == 200), [imageUrl, videoUrl])

/-- Sanitization of the emoji text used as a file name
(dynamic_media.py:279-281): characters illegal in file names are
replaced by underscores. -/
def sanitizeName (s : String) : String :=
  String.mk (s.toList.map (fun c =>
    if c ∈ ['<', '>', ':', '\"', '/', '\\', '|', '?', '*'] then '_' else c))

/-- Embeds `_download_emoji` (dynamic_media.py:273-297): the local path
is the sanitized emoji text with a `.png` extension; an existing file is
reported successful without a request; otherwise one GET, succeeding on
status 200, failing on any other status or a raised exception. -/
def _download_emoji (env : NetFs) (emojiUrl emojiText saveDir : String) :
    (String × String × Bool) × List String :=
  let emojiPath := saveDir ++ "/" ++ (sanitizeName emojiText ++ ".png")
  if env.fileExists emojiPath then ((emojiUrl, emojiPath, true), [])
  else
    match env.get emojiUrl with
    | none => ((emojiUrl, emojiPath, false), [emojiUrl])
    | some (status, _) =>
      ((emojiUrl, emojiPath, status == 200), [emojiUrl])

/-- Crawl state persisted per owner as `__host_meta.json`
(dynamic.py:281, 562-565): last fetch time, the `last_offset.offset`
value (kept as the raw JSON value the code stores; the constant
`update_baseline`/`update_num` companions are omitted), and the
fully-fetched flag. -/
structure Meta where
  lastFetchTime : Int
  offset : JVal
  fullyFetched : Bool
  deriving Repr

/-- Outcome of one remote page fetch as seen by `auto_fetch_all`:
`ok body` is a parsed JSON response; `err` is any of the fatal cases in
`fetch_dynamic_data` (dynamic.py:224-251): transport error, non-200
status, or a non-JSON body — all of which raise out of the loop. -/
inductive FetchResult where
  | ok : JVal → FetchResult
  | err : FetchResult

/-- Extraction of the item list from a response body
(dynamic.py:364-365): `data.get("data", {}).get("items", [])`. -/
def itemsOf (body : JVal) : List JVal :=
  let dataSection := if body.isObj then body.get "data" else .obj []
  match (if dataSection.isObj then dataSection.get "items" else .arr []) with
  | .arr l => l
  | _ => []

/-- Cursor normalization (dynamic.py:367-376): the next offset may be a
bare token or nested in an object under `offset`. -/
def offsetOf (body : JVal) : JVal :=
  let dataSection := if body.isObj then body.get "data" else .obj []
  let off := if dataSection.isObj then dataSection.get "offset" else .null
  if off.isObj then off.get "offset" else off

/-- The armed dedup scan over one page's items (dynamic.py:381-392),
threading the consecutive-duplicate counter: an item whose resolved id
is truthy and already present in the core table increments the counter;
reaching 10 triggers termination (page dropped, cursor forced empty);
any other item resets the counter to zero.  Returns the final counter
and whether the threshold was reached. -/
def dedupScan (db : Db) (hostMid : String) : Nat → List JVal → Nat × Bool
  | cd, [] => (cd, false)
  | cd, item :: rest =>
    let idv := resolvedId item
    if idv.truthy && dynamic_core_exists db hostMid (pyStr idv) then
      let cd' := cd + 1
      if cd' ≥ 10 then (cd', true)
      else dedupScan db hostMid cd' rest
    else dedupScan db hostMid 0 rest

/-- The condition arming the dedup/termination policy
(dynamic.py:292, 382): the stored crawl state said fully fetched (so the
run starts from head) and a database connection exists (`save_to_db`). -/
def dedupArmed (fullyFetched saveToDb : Bool) : Bool :=
  fullyFetched && saveToDb

/-- Terminal status of a crawl run: normal completion on an empty
cursor, page-granular user stop, a fatal fetch error, or exhaustion of
the model's fuel (an artifact of the embedding, never reached in the
finite scenarios the theorems use). -/
inductive Outcome where
  | completed : Outcome
  | stopped : Outcome
  | error : Outcome
  | outOfFuel : Outcome
  deriving Repr, DecidableEq

/-- Mutable state of the `auto_fetch_all` loop together with the
observable history the theorems inspect: the database, the
consecutive-duplicate counter, the current `next_offset` value, the
accumulated items, the page counter, the offset parameter of every page
request issued (`none` = parameter omitted, i.e. from head), and every
crawl-state record written to disk, in order. -/
structure LoopState where
  db : Db
  cd : Nat
  nextOffset : JVal
  allItems : List JVal
  page : Nat
  requests : List (Option JVal)
  metaWrites : List Meta
  deriving Repr

/-- Result of a crawl run: final loop state and terminal status. -/
structure RunResult where
  state : LoopState
  outcome : Outcome
  deriving Repr

/-- The offset parameter of the next page request (dynamic.py:340-344):
the current `next_offset` when truthy, else the parameter is omitted
(`none`), signaling a from-head request. -/
def reqParam (st : LoopState) : Option JVal :=
  if st.nextOffset.truthy then some st.nextOffset else none

/-- The dedup scan one page performs, guarded by the arming condition
(dynamic.py:381-392): armed, it threads the stored counter over the
page's items; disarmed, counter and trigger are untouched. -/
def pageScan (hostMid : String) (saveToDb startFromHead : Bool)
    (st : LoopState) (body : JVal) : Nat × Bool :=
  if dedupArmed startFromHead saveToDb then
    dedupScan st.db hostMid st.cd (itemsOf body)
  else (st.cd, false)

/-- The page's surviving items (dynamic.py:389): everything the server
returned, or nothing when the dedup threshold was reached. -/
def pageItems (hostMid : String) (saveToDb startFromHead : Bool)
    (st : LoopState) (body : JVal) : List JVal :=
  if (pageScan hostMid saveToDb startFromHead st body).2 then []
  else itemsOf body

/-- The page's next cursor (dynamic.py:371-376, 388): the normalized
response cursor, forced empty when the dedup threshold was reached. -/
def pageNoff (hostMid : String) (saveToDb startFromHead : Bool)
    (st : LoopState) (body : JVal) : JVal :=
  if (pageScan hostMid saveToDb startFromHead st body).2 then JVal.null
  else offsetOf body

/-- The crawl-state record written to `__host_meta.json` after a page
(dynamic.py:562-577): stored offset `next_offset or ""`, and
`fully_fetched` iff the next cursor is falsy. -/
def pageMeta (now : Int) (noff : JVal) : Meta :=
  { lastFetchTime := now
    offset := if noff.truthy then noff else JVal.str ""
    fullyFetched := !noff.truthy }

/-- One full successful page iteration of the loop body
(dynamic.py:356-577), from the state with the request already recorded:
dedup scan, item persistence when `save_to_db` and the page survived,
page counter increment, and the crawl-state write. -/
def pageStep (hostMid : String) (saveToDb saveMedia startFromHead : Bool)
    (media : JVal → List String × List String) (now : Int)
    (st : LoopState) (body : JVal) : LoopState :=
  { db :=
      if saveToDb &&
          !(pageItems hostMid saveToDb startFromHead st body).isEmpty then
        (pageItems hostMid saveToDb startFromHead st body).foldl
          (ingestItem hostMid now saveMedia media) st.db
      else st.db
    cd := (pageScan hostMid saveToDb startFromHead st body).1
    nextOffset := pageNoff hostMid saveToDb startFromHead st body
    allItems := st.allItems ++ pageItems hostMid saveToDb startFromHead st body
    page := st.page + 1
    requests := st.requests
    metaWrites := st.metaWrites ++
      [pageMeta now (pageNoff hostMid saveToDb startFromHead st body)] }

/-- The body of `auto_fetch_all`'s while-loop (dynamic.py:335-590),
fuel-indexed.  Parameters: `fetch` maps the index of a request to the
remote response (the k-th issued request receives `fetch k`); `stop`
tells whether the owner's stop event is set when checked after page `p`;
`startFromHead` and `saveToDb` are the run-level flags; `media` is the
per-item media-harvest oracle (see `ingestItem`); `now` abstracts
`int(time.time())`.  Each iteration: choose the offset parameter, issue
the request (a fetch failure raises — the run ends with `error`, writing
nothing), run the page step on success, then terminate with normal
completion on an empty cursor, else honor the stop signal at the page
boundary, else continue. -/
def runLoop (fetch : Nat → FetchResult) (stop : Nat → Bool)
    (hostMid : String) (saveToDb saveMedia startFromHead : Bool)
    (media : JVal → List String × List String) (now : Int) :
    Nat → LoopState → RunResult
  | 0, st => ⟨st, .outOfFuel⟩
  | fuel + 1, st =>
    let st1 := { st with requests := st.requests ++ [reqParam st] }
    match fetch st.requests.length with
    | .err => ⟨st1, .error⟩
    | .ok body =>
      let st' := pageStep hostMid saveToDb saveMedia startFromHead media now
        st1 body
      if !st'.nextOffset.truthy then ⟨st', .completed⟩
      else if stop st'.page then ⟨st', .stopped⟩
      else runLoop fetch stop hostMid saveToDb saveMedia startFromHead
        media now fuel st'

/-- Embeds `auto_fetch_all` (dynamic.py:254-611) given the crawl state
`meta0` loaded (and default-merged) from `__host_meta.json`: the run
starts from head iff `fully_fetched` was stored true, else resumes with
the stored offset when truthy (dynamic.py:292-293); the stop event is
cleared before the loop, so `stop` describes only signals arriving
during this run. -/
def auto_fetch_all (fetch : Nat → FetchResult) (stop : Nat → Bool)
    (hostMid : String) (saveToDb saveMedia : Bool)
    (media : JVal → List String × List String) (now : Int)
    (fuel : Nat) (meta0 : Meta) (db0 : Db) : RunResult :=
  let startFromHead := meta0.fullyFetched
  let nextOffset0 : JVal :=
    if startFromHead then .null
    else if meta0.offset.truthy then meta0.offset else .null
  runLoop fetch stop hostMid saveToDb saveMedia startFromHead media now fuel
    { db := db0, cd := 0, nextOffset := nextOffset0, allItems := []
      page := 0, requests := [], metaWrites := [] }

/-- An item is a duplicate in the sense of the dedup scan
(dynamic.py:384-385): its resolved id is truthy and already present in
the core table. -/
def isDupB (db : Db) (hostMid : String) (item : JVal) : Bool :=
  (resolvedId item).truthy &&
    dynamic_core_exists db hostMid (pyStr (resolvedId item))

/-- A core row carrying only the key, as stored for a previously
ingested item (test fixture). -/
def simpleRow (hostMid idStr : String) : CoreRow :=
  { hostMid := hostMid, idStr := idStr, type := .null, visible := none
    publishTs := none, commentIdStr := .null, commentType := none
    ridStr := .null, txt := .null, authorName := .null, bvid := .null
    title := .null, cover := .null, descr := .null, articleTitle := .null
    articleCovers := none, opusTitle := .null, opusSummaryText := .null
    mediaLocals := none, mediaCount := 0, liveMediaLocals := none
    liveMediaCount := 0, fetchTime := 0 }

/-- A feed item carrying just an `id_str` field (test fixture). -/
def idItem (idStr : String) : JVal := .obj [("id_str", .str idStr)]

/-- Ten stored rows `d0..d9` for owner `7` (test fixture). -/
def dbTen : Db := (List.range 10).map (fun i => simpleRow "7" ("d" ++ toString i))

/-- Ten feed items duplicating the rows of `dbTen` (test fixture). -/
def dupsTen : List JVal := (List.range 10).map (fun i => idItem ("d" ++ toString i))

/-- A raw feed-API response page (test fixture builder). -/
def mkBody (items : List JVal) (off : JVal) : JVal :=
  .obj [("data", .obj [("items", .arr items), ("offset", off)])]

/-- First page of the head-restart scenario: the ten duplicates followed
by a truthy next cursor (test fixture). -/
def bodyC1 : JVal := mkBody dupsTen (.str "next")

/-- Dedup-counter-reset page: duplicate, duplicate, a new item, then
nine more duplicates, with a truthy next cursor (test fixture). -/
def bodyReset : JVal :=
  mkBody ([idItem "d0", idItem "d1", idItem "n"] ++
    (List.range 9).map (fun i => idItem ("d" ++ toString i))) (.str "c2")

/-- First page of the cross-page-streak scenario: five duplicates, a
truthy next cursor (test fixture). -/
def bodyHalfA : JVal :=
  mkBody ((List.range 5).map (fun i => idItem ("d" ++ toString i))) (.str "c2")

/-- Second page of the cross-page-streak scenario: the other five
duplicates (test fixture). -/
def bodyHalfB : JVal :=
  mkBody ((List.range 5).map (fun i => idItem ("d" ++ toString (5 + i)))) (.str "c3")

/-- A feed item with one image and media elsewhere than avatar/label
(test fixture). -/
def itemOneImage : JVal :=
  .obj [("id_str", .str "X"),
        ("major", .obj [("draw", .obj [("items",
          .arr [.obj [("src", .str "http://i0.hdslb.com/bfs/album/pic1.jpg")]])])])]

/-- A feed item whose only image-shaped URLs sit under an avatar field
and a label field (test fixture). -/
def itemAvatarLabel : JVal :=
  .obj [("avatar", .obj [("url", .str "http://i0.hdslb.com/bfs/album/av.png")]),
        ("label", .obj [("icon", .str "http://i0.hdslb.com/bfs/album/lab.png")])]

/-- A downloader environment in which every predicted file already
exists and every network request would fail (test fixture). -/
def envAllFiles : NetFs :=
  { fileExists := fun _ => true, get := fun _ => none }

/-- The core table after ingesting the item `X` whose media harvest
predicted the single local path `a.jpg` (test fixture). -/
def dbAfterFirstIngest : Db :=
  ingestItem "7" 100 true (fun _ => (["a.jpg"], ["l.jpg", "l.mp4"])) []
    (idItem "X")

/-- The core table after re-ingesting the same item `X` with an empty
media-path set (test fixture). -/
def dbAfterSecondIngest : Db :=
  ingestItem "7" 200 true (fun _ => ([], [])) dbAfterFirstIngest (idItem "X")

theorem dedupScan_all_dup_no_trigger (db : Db) (host : String)
    (l : List JVal) :
    ∀ (cd : Nat), (∀ x ∈ l, isDupB db host x = true) →
      cd + l.length < 10 →
      dedupScan db host cd l = (cd + l.length, false) := by
  induction l with
  | nil => intro cd _ _; simp [dedupScan]
  | cons x l ih =>
    intro cd hdup hlt
    have hx : ((resolvedId x).truthy &&
        dynamic_core_exists db host (pyStr (resolvedId x))) = true :=
      hdup x (List.mem_cons_self x l)
    have hnotrig : ¬ (10 ≤ cd + 1) := by
      simp only [List.length_cons] at hlt; omega
    simp only [dedupScan, hx, if_true, hnotrig, if_false, ite_true, ite_false,
      if_neg hnotrig]
    rw [ih (cd + 1) (fun y hy => hdup y (List.mem_cons_of_mem x hy))
      (by simp only [List.length_cons] at hlt ⊢; omega)]
    simp only [List.length_cons]
    congr 1
    omega

theorem dedupScan_all_dup_trigger (db : Db) (host : String)
    (l : List JVal) :
    ∀ (rest : List JVal) (cd : Nat),
      (∀ x ∈ l, isDupB db host x = true) →
      cd < 10 → 10 ≤ cd + l.length →
      dedupScan db host cd (l ++ rest) = (10, true) := by
  induction l with
  | nil => intro rest cd _ hlt hge; simp only [List.length_nil] at hge; omega
  | cons x l ih =>
    intro rest cd hdup hlt hge
    have hx : ((resolvedId x).truthy &&
        dynamic_core_exists db host (pyStr (resolvedId x))) = true :=
      hdup x (List.mem_cons_self x l)
    by_cases htrig : 10 ≤ cd + 1
    · have hcd : cd + 1 = 10 := by omega
      simp [dedupScan, hx, htrig, hcd]
    · simp only [List.cons_append, dedupScan, hx, if_true, ite_true,
        if_neg htrig]
      exact ih rest (cd + 1) (fun y hy => hdup y (List.mem_cons_of_mem x hy))
        (by omega) (by simp only [List.length_cons] at hge; omega)

/-- The property every URL collected by the walk satisfies
(dynamic_media.py:76-84): it looks like an image URL and contains no
face/avatar path fragment. -/
def collectedUrlOk (u : String) : Bool :=
  _looks_like_image_url u && !strContainsSub (strToLower u) "/bfs/face/" &&
    !strContainsSub (strToLower u) "/face/"

theorem jval_truthy_null : JVal.null.truthy = false := rfl

theorem jval_truthy_empty_str : (JVal.str "").truthy = false := rfl

theorem pageStep_requests (hostMid : String) (sdb sm sfh : Bool)
    (media : JVal → List String × List String) (now : Int)
    (st : LoopState) (body : JVal) :
    (pageStep hostMid sdb sm sfh media now st body).requests = st.requests :=
  rfl

theorem runLoop_requests_extend (fetch : Nat → FetchResult)
    (stop : Nat → Bool) (host : String) (sdb sm sfh : Bool)
    (media : JVal → List String × List String) (now : Int) :
    ∀ (fuel : Nat) (st : LoopState),
      ∃ t, (runLoop fetch stop host sdb sm sfh media now fuel st).state.requests
        = st.requests ++ t := by
  intro fuel
  induction fuel with
  | zero => intro st; exact ⟨[], by simp [runLoop]⟩
  | succ n ih =>
    intro st
    simp only [runLoop]
    split
    · exact ⟨[reqParam st], rfl⟩
    · split
      · exact ⟨[reqParam st], rfl⟩
      · split
        · exact ⟨[reqParam st], rfl⟩
        · obtain ⟨t, ht⟩ := ih _
          refine ⟨[reqParam st] ++ t, ?_⟩
          rw [ht, pageStep_requests]
          simp

theorem pageMeta_offset_inv (now : Int) (noff : JVal) :
    ((pageMeta now noff).offset = JVal.str "" ↔
      (pageMeta now noff).fullyFetched = true) := by
  by_cases hnt : noff.truthy = true
  · simp only [pageMeta, hnt, if_true, Bool.not_true, ite_true]
    constructor
    · intro h; rw [h] at hnt; simp [JVal.truthy] at hnt
    · intro h; cases h
  · simp only [Bool.not_eq_true] at hnt
    simp [pageMeta, hnt]

theorem runLoop_metaWrites_inv (fetch : Nat → FetchResult)
    (stop : Nat → Bool) (host : String) (sdb sm sfh : Bool)
    (media : JVal → List String × List String) (now : Int) :
    ∀ (fuel : Nat) (st : LoopState),
      (∀ m ∈ st.metaWrites, (m.offset = JVal.str "" ↔ m.fullyFetched = true)) →
      ∀ m ∈ (runLoop fetch stop host sdb sm sfh media now fuel st).state.metaWrites,
        (m.offset = JVal.str "" ↔ m.fullyFetched = true) := by
  intro fuel
  induction fuel with
  | zero => intro st h; simpa [runLoop] using h
  | succ n ih =>
    intro st h m hm
    simp only [runLoop] at hm
    have hstep : ∀ (st0 : LoopState) (body : JVal),
        (∀ m' ∈ st0.metaWrites, (m'.offset = JVal.str "" ↔ m'.fullyFetched = true)) →
        ∀ m' ∈ (pageStep host sdb sm sfh media now st0 body).metaWrites,
          (m'.offset = JVal.str "" ↔ m'.fullyFetched = true) := by
      intro st0 body h0 m' hm'
      simp only [pageStep] at hm'
      rcases List.mem_append.mp hm' with hold | hnew
      · exact h0 m' hold
      · rcases List.mem_singleton.mp hnew with rfl
        exact pageMeta_offset_inv now _
    have h1 : ∀ m' ∈ (LoopState.metaWrites
        { st with requests := st.requests ++ [reqParam st] }),
        (m'.offset = JVal.str "" ↔ m'.fullyFetched = true) := h
    split at hm
    · exact h m hm
    · split at hm
      · exact hstep _ _ h1 m hm
      · split at hm
        · exact hstep _ _ h1 m hm
        · exact ih _ (hstep _ _ h1) m hm

theorem runLoop_first_request (fetch : Nat → FetchResult)
    (stop : Nat → Bool) (host : String) (sdb sm sfh : Bool)
    (media : JVal → List String × List String) (now : Int)
    (fuel : Nat) (st : LoopState) (h : st.requests = []) :
    (runLoop fetch stop host sdb sm sfh media now (fuel + 1) st).state.requests.head?
      = some (reqParam st) := by
  simp only [runLoop]
  split
  · simp [h]
  · split
    · simp [pageStep, h]
    · split
      · simp [pageStep, h]
      · obtain ⟨t, ht⟩ := runLoop_requests_extend fetch stop host sdb sm sfh
          media now fuel _
        rw [ht, pageStep_requests]
        simp [h]

/-- C2: the claim that media-path columns are write-once-if-empty fails
on the code: re-ingesting an item whose `media_locals` /
`live_media_locals` were populated blanks them, because the core
upsert's ON CONFLICT clause overwrites both columns with its bound
values, which are always NULL (dynamic_db.py:323-326, 348-352), and the
write-once CASE of the write-back UPDATE (dynamic.py:536-544) never runs
when the new media-path set is empty.  Evaluated at the failing input:
item `X` ingested with predicted paths, then re-ingested with an empty
set, loses both columns. -/
theorem c2_reingest_blanks_media_paths :
    dbAfterFirstIngest.map (fun r => (r.mediaLocals, r.liveMediaLocals, r.liveMediaCount)) =
      [(some "a.jpg", some "l.jpg,l.mp4", 2)] ∧
    dbAfterSecondIngest.map (fun r => (r.mediaLocals, r.liveMediaLocals, r.liveMediaCount)) =
      [(none, none, 0)] :=
  ⟨rfl, rfl⟩

/-- C7: the claim that an item with no resolvable id is hard-skipped
(no row written) fails on the code: for an item missing `id_str`,
`basic.id_str` and `id` alike, the fallback `str(item.get("id"))`
produces the truthy string `"None"` (dynamic_db.py:211-215), so the
skip guard at dynamic_db.py:216-218 is not taken and a row keyed by the
literal id `"None"` is inserted. -/
theorem c7_missing_id_stored_as_none :
    (resolvedId (JVal.obj [])).truthy = true ∧
    itemIdStr (JVal.obj []) = "None" ∧
    (save_normalized_dynamic_item [] "1" 5 (JVal.obj [])).map
      (fun r => r.idStr) = ["None"] :=
  ⟨rfl, rfl, rfl⟩

/-- C8 counterexample: the claim that skip-if-exists holds for all
three download variants fails for plain images: in an environment where
every predicted file exists (and the network always fails),
`_download_one` still issues a network request for the asset and
reports failure, instead of skipping and reporting success. -/
theorem c8_plain_image_no_skip :
    envAllFiles.fileExists
      (predict_image_path "http://example.com/a.jpg" "d") = true ∧
    (_download_one envAllFiles "http://example.com/a.jpg" "d").2 =
      ["http://example.com/a.jpg"] ∧
    (_download_one envAllFiles "http://example.com/a.jpg" "d").1.2.2 = false :=
  ⟨rfl, rfl, rfl⟩

/-- C8 (amended): skip-if-exists holds for the live image/video pair and
emoji variants — an asset whose predicted local file(s) already exist is
reported successful with the predicted path(s) and no network request is
issued — while the plain-image variant issues a request for every URL
unconditionally. -/
theorem c8_skip_if_exists_live_emoji_only :
    (∀ (env : NetFs) (imageUrl videoUrl saveDir : String),
      env.fileExists (saveDir ++ "/" ++ (_hash_name imageUrl ++ _guess_extension imageUrl)) = true →
      env.fileExists (saveDir ++ "/" ++ (_hash_name videoUrl ++ ".mp4")) = true →
      _download_live_media env imageUrl videoUrl saveDir =
        ((imageUrl, videoUrl,
          saveDir ++ "/" ++ (_hash_name imageUrl ++ _guess_extension imageUrl),
          saveDir ++ "/" ++ (_hash_name videoUrl ++ ".mp4"), true), [])) ∧
    (∀ (env : NetFs) (emojiUrl emojiText saveDir : String),
      env.fileExists (saveDir ++ "/" ++ (sanitizeName emojiText ++ ".png")) = true →
      _download_emoji env emojiUrl emojiText saveDir =
        ((emojiUrl, saveDir ++ "/" ++ (sanitizeName emojiText ++ ".png"), true), [])) ∧
    (∀ (env : NetFs) (url saveDir : String),
      (_download_one env url saveDir).2 = [url]) := by
  refine ⟨?_, ?_, ?_⟩
  · intro env imageUrl videoUrl saveDir hi hv
    simp [_download_live_media, hi, hv]
  · intro env emojiUrl emojiText saveDir he
    simp [_download_emoji, he]
  · intro env url saveDir
    rcases henv : env.get url with _ | ⟨s, c⟩
    · simp [_download_one, henv]
    · simp only [_download_one, henv]
      split
      · rfl
      · split <;> rfl

/-- Witness for C8's amended theorem at a concrete environment in which
both live legs and the emoji file already exist. -/
theorem c8_skip_if_exists_live_emoji_only_witness :
    (_download_live_media envAllFiles "http://e/a.jpg" "http://e/b.mp4" "d").2 = [] ∧
    (_download_emoji envAllFiles "http://e/s.png" "[s]" "d").2 = [] := by
  have h := c8_skip_if_exists_live_emoji_only
  constructor
  · rw [h.1 envAllFiles "http://e/a.jpg" "http://e/b.mp4" "d" rfl rfl]
  · rw [h.2.1 envAllFiles "http://e/s.png" "[s]" "d" rfl]

/-- C3: with stored `fully_fetched=false` and a non-empty cursor c1, a
new run issues its first page request with the offset parameter set to
c1 (not from head) and the dedup policy is disarmed; with
`fully_fetched=true` the first request omits the offset parameter (from
head) and the dedup policy is armed (given a database connection,
`save_to_db`). -/
theorem c3_resume_cursor_and_arming
    (fetch : Nat → FetchResult) (stop : Nat → Bool) (host : String)
    (saveToDb saveMedia : Bool) (media : JVal → List String × List String)
    (now : Int) (fuel : Nat) (meta0 : Meta) (db0 : Db) (c1 : String)
    (hc1 : c1 ≠ "") :
    (meta0.fullyFetched = false → meta0.offset = JVal.str c1 →
      ((auto_fetch_all fetch stop host saveToDb saveMedia media now
          (fuel + 1) meta0 db0).state.requests.head? =
        some (some (JVal.str c1)) ∧
       dedupArmed meta0.fullyFetched saveToDb = false)) ∧
    (meta0.fullyFetched = true →
      ((auto_fetch_all fetch stop host saveToDb saveMedia media now
          (fuel + 1) meta0 db0).state.requests.head? = some none ∧
       dedupArmed meta0.fullyFetched true = true)) := by
  constructor
  · intro hff hoff
    refine ⟨?_, by simp [dedupArmed, hff]⟩
    simp only [auto_fetch_all, hff, hoff]
    rw [runLoop_first_request fetch stop host saveToDb saveMedia false media
      now fuel _ rfl]
    simp [reqParam, JVal.truthy, hc1]
  · intro hff
    refine ⟨?_, by simp [dedupArmed, hff]⟩
    simp only [auto_fetch_all, hff]
    rw [runLoop_first_request fetch stop host saveToDb saveMedia true media
      now fuel _ rfl]
    simp [reqParam, JVal.truthy]

/-- Witness for C3 at a concrete resume state (cursor "c0") and a
concrete from-head state. -/
theorem c3_resume_cursor_and_arming_witness :
    ((auto_fetch_all (fun _ => .err) (fun _ => false) "7" true false
        (fun _ => ([], [])) 0 1 ⟨0, .str "c0", false⟩ []).state.requests.head? =
      some (some (JVal.str "c0")) ∧ dedupArmed false true = false) ∧
    ((auto_fetch_all (fun _ => .err) (fun _ => false) "7" true false
        (fun _ => ([], [])) 0 1 ⟨0, .str "c0", true⟩ []).state.requests.head? =
      some none ∧ dedupArmed true true = true) := by
  have h := c3_resume_cursor_and_arming (fun _ => .err) (fun _ => false) "7"
    true false (fun _ => ([], [])) 0 0 ⟨0, .str "c0", false⟩ [] "c0"
    (by decide)
  have h' := c3_resume_cursor_and_arming (fun _ => .err) (fun _ => false) "7"
    true false (fun _ => ([], [])) 0 0 ⟨0, .str "c0", true⟩ [] "c0"
    (by decide)
  exact ⟨h.1 rfl rfl, h'.2 rfl⟩

/-- C5: every crawl-state record the loop writes satisfies the
invariant that the stored cursor is empty exactly when the stored
`fully_fetched` flag is true (dynamic.py:562-565 always pair
`last_offset.offset = next_offset or ""` with
`fully_fetched = not bool(next_offset)`). -/
theorem c5_cursor_empty_iff_fully_fetched
    (fetch : Nat → FetchResult) (stop : Nat → Bool) (host : String)
    (saveToDb saveMedia : Bool) (media : JVal → List String × List String)
    (now : Int) (fuel : Nat) (meta0 : Meta) (db0 : Db) :
    ∀ m ∈ (auto_fetch_all fetch stop host saveToDb saveMedia media now fuel
        meta0 db0).state.metaWrites,
      (m.offset = JVal.str "" ↔ m.fullyFetched = true) := by
  intro m hm
  simp only [auto_fetch_all] at hm
  exact runLoop_metaWrites_inv fetch stop host saveToDb saveMedia
    meta0.fullyFetched media now fuel _ (by intro m' hm'; cases hm') m hm

/-- Witness for C5 on the record written by the concrete head-restart
run over `bodyC1`. -/
theorem c5_cursor_empty_iff_fully_fetched_witness :
    ((⟨0, JVal.str "", true⟩ : Meta).offset = JVal.str "" ↔
      (⟨0, JVal.str "", true⟩ : Meta).fullyFetched = true) :=
  c5_cursor_empty_iff_fully_fetched (fun _ => .ok bodyC1) (fun _ => false)
    "7" true false (fun _ => ([], [])) 0 1 ⟨0, .str "", true⟩ dbTen
    ⟨0, JVal.str "", true⟩
    (by
      have hw : (auto_fetch_all (fun _ => .ok bodyC1) (fun _ => false) "7"
          true false (fun _ => ([], [])) 0 1 ⟨0, .str "", true⟩
          dbTen).state.metaWrites = [⟨0, JVal.str "", true⟩] := rfl
      rw [hw]
      exact List.mem_singleton.mpr rfl)

/-- C1: in a run with stored `fully_fetched=true` (dedup armed,
database connection on) whose first page starts with 10 items already
present in the Feed Store, the threshold forces the next cursor empty,
drops the whole page from persistence (database unchanged, no items
accumulated), terminates the run after that page with normal
completion, and persists exactly one crawl-state record with an empty
cursor and `fully_fetched=true`. -/
theorem c1_head_restart_termination
    (fetch : Nat → FetchResult) (stop : Nat → Bool) (host : String)
    (saveMedia : Bool) (media : JVal → List String × List String)
    (now : Int) (fuel : Nat) (meta0 : Meta) (db0 : Db) (body : JVal)
    (dups rest : List JVal)
    (hff : meta0.fullyFetched = true)
    (hfetch : fetch 0 = .ok body)
    (hitems : itemsOf body = dups ++ rest)
    (hlen : dups.length = 10)
    (hdup : ∀ x ∈ dups, isDupB db0 host x = true) :
    ((auto_fetch_all fetch stop host true saveMedia media now (fuel + 1)
        meta0 db0).outcome,
     (auto_fetch_all fetch stop host true saveMedia media now (fuel + 1)
        meta0 db0).state.page,
     (auto_fetch_all fetch stop host true saveMedia media now (fuel + 1)
        meta0 db0).state.db,
     (auto_fetch_all fetch stop host true saveMedia media now (fuel + 1)
        meta0 db0).state.allItems,
     (auto_fetch_all fetch stop host true saveMedia media now (fuel + 1)
        meta0 db0).state.metaWrites) =
    (.completed, 1, db0, [], [⟨now, JVal.str "", true⟩]) := by
  have hscan : dedupScan db0 host 0 (dups ++ rest) = (10, true) :=
    dedupScan_all_dup_trigger db0 host dups rest 0 hdup (by omega)
      (by omega)
  simp [auto_fetch_all, hff, runLoop, hfetch, pageStep, pageNoff,
    pageItems, pageScan, pageMeta, dedupArmed, hitems, hscan, JVal.truthy,
    reqParam]

/-- Witness for C1 at the concrete head-restart scenario: ten stored
duplicates at the head of the first page. -/
theorem c1_head_restart_termination_witness :
    ((auto_fetch_all (fun _ => .ok bodyC1) (fun _ => false) "7" true false
        (fun _ => ([], [])) 0 1 ⟨0, .str "", true⟩ dbTen).outcome,
     (auto_fetch_all (fun _ => .ok bodyC1) (fun _ => false) "7" true false
        (fun _ => ([], [])) 0 1 ⟨0, .str "", true⟩ dbTen).state.page,
     (auto_fetch_all (fun _ => .ok bodyC1) (fun _ => false) "7" true false
        (fun _ => ([], [])) 0 1 ⟨0, .str "", true⟩ dbTen).state.db,
     (auto_fetch_all (fun _ => .ok bodyC1) (fun _ => false) "7" true false
        (fun _ => ([], [])) 0 1 ⟨0, .str "", true⟩ dbTen).state.allItems,
     (auto_fetch_all (fun _ => .ok bodyC1) (fun _ => false) "7" true false
        (fun _ => ([], [])) 0 1 ⟨0, .str "", true⟩ dbTen).state.metaWrites) =
    (.completed, 1, dbTen, [], [⟨0, JVal.str "", true⟩]) :=
  c1_head_restart_termination (fun _ => .ok bodyC1) (fun _ => false) "7"
    false (fun _ => ([], [])) 0 0 ⟨0, .str "", true⟩ dbTen bodyC1 dupsTen []
    rfl rfl rfl (by decide)
    (by
      intro x hx
      have hall : dupsTen.all (fun x => isDupB dbTen "7" x) = true := by decide
      exact List.all_eq_true.mp hall x hx)

/-- C4: in an armed from-head run, an item not already present in the
Feed Store resets the consecutive-duplicate counter to zero, so a first
page showing duplicate, duplicate, new, then nine duplicates ends the
page with counter 9, never reaches the threshold, drops nothing, and
does not terminate the run early (here the run ends as user-stopped
after the page, with the page's truthy cursor and `fully_fetched=false`
persisted). -/
theorem c4_counter_reset_prevents_termination
    (fetch : Nat → FetchResult) (stop : Nat → Bool) (host : String)
    (saveMedia : Bool) (media : JVal → List String × List String)
    (now : Int) (fuel : Nat) (meta0 : Meta) (db0 : Db) (body : JVal)
    (x1 x2 n : JVal) (ds : List JVal)
    (hff : meta0.fullyFetched = true)
    (hfetch : fetch 0 = .ok body)
    (hitems : itemsOf body = x1 :: x2 :: n :: ds)
    (hx1 : isDupB db0 host x1 = true)
    (hx2 : isDupB db0 host x2 = true)
    (hnT : (resolvedId n).truthy = true)
    (hnE : dynamic_core_exists db0 host (pyStr (resolvedId n)) = false)
    (hds : ∀ x ∈ ds, isDupB db0 host x = true)
    (hlen : ds.length = 9)
    (hoff : (offsetOf body).truthy = true)
    (hstop : stop 1 = true) :
    ((auto_fetch_all fetch stop host true saveMedia media now (fuel + 1)
        meta0 db0).outcome,
     (auto_fetch_all fetch stop host true saveMedia media now (fuel + 1)
        meta0 db0).state.page,
     (auto_fetch_all fetch stop host true saveMedia media now (fuel + 1)
        meta0 db0).state.cd,
     (auto_fetch_all fetch stop host true saveMedia media now (fuel + 1)
        meta0 db0).state.allItems,
     (auto_fetch_all fetch stop host true saveMedia media now (fuel + 1)
        meta0 db0).state.metaWrites) =
    (.stopped, 1, 9, x1 :: x2 :: n :: ds, [⟨now, offsetOf body, false⟩]) := by
  rw [isDupB] at hx1 hx2
  have hscan : dedupScan db0 host 0 (x1 :: x2 :: n :: ds) = (9, false) := by
    simp only [dedupScan, hx1, hx2, hnT, hnE, Bool.and_false, if_true,
      ite_true, if_false, ite_false, Bool.true_and]
    rw [dedupScan_all_dup_no_trigger db0 host ds 0 hds (by omega)]
    simp [hlen]
  simp [auto_fetch_all, hff, runLoop, hfetch, pageStep, pageNoff,
    pageItems, pageScan, pageMeta, dedupArmed, hitems, hscan,
    jval_truthy_null, reqParam, hoff, hstop]

/-- Witness for C4 at the concrete reset scenario `bodyReset` against
the ten stored rows. -/
theorem c4_counter_reset_prevents_termination_witness :
    ((auto_fetch_all (fun _ => .ok bodyReset) (fun _ => true) "7" true
        false (fun _ => ([], [])) 0 1 ⟨0, .str "", true⟩ dbTen).outcome,
     (auto_fetch_all (fun _ => .ok bodyReset) (fun _ => true) "7" true
        false (fun _ => ([], [])) 0 1 ⟨0, .str "", true⟩ dbTen).state.page,
     (auto_fetch_all (fun _ => .ok bodyReset) (fun _ => true) "7" true
        false (fun _ => ([], [])) 0 1 ⟨0, .str "", true⟩ dbTen).state.cd,
     (auto_fetch_all (fun _ => .ok bodyReset) (fun _ => true) "7" true
        false (fun _ => ([], [])) 0 1 ⟨0, .str "", true⟩ dbTen).state.allItems,
     (auto_fetch_all (fun _ => .ok bodyReset) (fun _ => true) "7" true
        false (fun _ => ([], [])) 0 1 ⟨0, .str "", true⟩ dbTen).state.metaWrites) =
    (.stopped, 1, 9,
      [idItem "d0", idItem "d1", idItem "n"] ++
        (List.range 9).map (fun i => idItem ("d" ++ toString i)),
      [⟨0, JVal.str "c2", false⟩]) := by
  have h := c4_counter_reset_prevents_termination (fun _ => .ok bodyReset)
    (fun _ => true) "7" false (fun _ => ([], [])) 0 0 ⟨0, .str "", true⟩
    dbTen bodyReset (idItem "d0") (idItem "d1") (idItem "n")
    ((List.range 9).map (fun i => idItem ("d" ++ toString i)))
    rfl rfl rfl (by decide) (by decide) (by decide) (by decide)
    (by
      intro x hx
      have hall : ((List.range 9).map (fun i => idItem ("d" ++ toString i))).all
          (fun x => isDupB dbTen "7" x) = true := by decide
      exact List.all_eq_true.mp hall x hx)
    (by decide) rfl rfl
  simpa using h

/-- C6: a page-fetch failure (transport error, non-success status, or
unparsable body — all mapped to `FetchResult.err`) is fatal to the run
and atomic: after one successful page, a failing second fetch ends the
run with the `error` outcome, with exactly two requests issued (no
internal retry) and the persisted crawl state consisting solely of the
first page's record — the failed fetch writes nothing. -/
theorem c6_fetch_failure_fatal_no_write
    (fetch : Nat → FetchResult) (stop : Nat → Bool) (host : String)
    (saveToDb saveMedia : Bool) (media : JVal → List String × List String)
    (now : Int) (fuel : Nat) (meta0 : Meta) (db0 : Db) (body1 : JVal)
    (hff : meta0.fullyFetched = false)
    (hf0 : fetch 0 = .ok body1)
    (hoff : (offsetOf body1).truthy = true)
    (hstop : stop 1 = false)
    (hf1 : fetch 1 = .err) :
    ((auto_fetch_all fetch stop host saveToDb saveMedia media now (fuel + 2)
        meta0 db0).outcome,
     (auto_fetch_all fetch stop host saveToDb saveMedia media now (fuel + 2)
        meta0 db0).state.page,
     (auto_fetch_all fetch stop host saveToDb saveMedia media now (fuel + 2)
        meta0 db0).state.requests.length,
     (auto_fetch_all fetch stop host saveToDb saveMedia media now (fuel + 2)
        meta0 db0).state.metaWrites) =
    (.error, 1, 2, [⟨now, offsetOf body1, false⟩]) := by
  simp [auto_fetch_all, hff, runLoop, hf0, hf1, pageStep, pageNoff,
    pageItems, pageScan, pageMeta, dedupArmed, jval_truthy_null,
    reqParam, hoff, hstop]

/-- Witness for C6 at the concrete scenario: one good page (`bodyC1`
with a truthy cursor) followed by a failing fetch. -/
theorem c6_fetch_failure_fatal_no_write_witness :
    ((auto_fetch_all (fun i => if i == 0 then .ok bodyC1 else .err)
        (fun _ => false) "7" true false (fun _ => ([], [])) 0 2
        ⟨0, .str "c0", false⟩ dbTen).outcome,
     (auto_fetch_all (fun i => if i == 0 then .ok bodyC1 else .err)
        (fun _ => false) "7" true false (fun _ => ([], [])) 0 2
        ⟨0, .str "c0", false⟩ dbTen).state.page,
     (auto_fetch_all (fun i => if i == 0 then .ok bodyC1 else .err)
        (fun _ => false) "7" true false (fun _ => ([], [])) 0 2
        ⟨0, .str "c0", false⟩ dbTen).state.requests.length,
     (auto_fetch_all (fun i => if i == 0 then .ok bodyC1 else .err)
        (fun _ => false) "7" true false (fun _ => ([], [])) 0 2
        ⟨0, .str "c0", false⟩ dbTen).state.metaWrites) =
    (.error, 1, 2, [⟨0, offsetOf bodyC1, false⟩]) :=
  c6_fetch_failure_fatal_no_write (fun i => if i == 0 then .ok bodyC1 else .err)
    (fun _ => false) "7" true false (fun _ => ([], [])) 0 0
    ⟨0, .str "c0", false⟩ dbTen bodyC1 rfl rfl rfl rfl rfl

/-- C10: the consecutive-duplicate counter is initialized once per run
and survives the page boundary: with the counter at k after a first
page of k duplicates (k < 10), a second page opening with the remaining
10 − k duplicates reaches the threshold there, drops the second page,
forces the cursor empty, and completes the run — the streak accumulates
across the two pages. -/
theorem c10_counter_spans_pages
    (fetch : Nat → FetchResult) (stop : Nat → Bool) (host : String)
    (saveMedia : Bool) (media : JVal → List String × List String)
    (now : Int) (fuel : Nat) (meta0 : Meta) (db0 : Db)
    (body1 body2 : JVal) (p1 p2 rest2 : List JVal) (k : Nat)
    (hff : meta0.fullyFetched = true)
    (hf0 : fetch 0 = .ok body1)
    (hitems1 : itemsOf body1 = p1)
    (hlen1 : p1.length = k)
    (hk : 0 < k) (hk10 : k < 10)
    (hdup1 : ∀ x ∈ p1, isDupB db0 host x = true)
    (hoff1 : (offsetOf body1).truthy = true)
    (hstop : stop 1 = false)
    (hf1 : fetch 1 = .ok body2)
    (hitems2 : itemsOf body2 = p2 ++ rest2)
    (hlen2 : p2.length = 10 - k)
    (hdup2 : ∀ x ∈ p2,
      isDupB (p1.foldl (ingestItem host now saveMedia media) db0) host x = true) :
    ((auto_fetch_all fetch stop host true saveMedia media now (fuel + 2)
        meta0 db0).outcome,
     (auto_fetch_all fetch stop host true saveMedia media now (fuel + 2)
        meta0 db0).state.page,
     (auto_fetch_all fetch stop host true saveMedia media now (fuel + 2)
        meta0 db0).state.cd,
     (auto_fetch_all fetch stop host true saveMedia media now (fuel + 2)
        meta0 db0).state.allItems,
     (auto_fetch_all fetch stop host true saveMedia media now (fuel + 2)
        meta0 db0).state.metaWrites) =
    (.completed, 2, 10, p1,
      [⟨now, offsetOf body1, false⟩, ⟨now, JVal.str "", true⟩]) := by
  have hscan1 : dedupScan db0 host 0 p1 = (k, false) := by
    rw [dedupScan_all_dup_no_trigger db0 host p1 0 hdup1 (by omega)]
    simp [hlen1]
  have hscan2 : dedupScan (p1.foldl (ingestItem host now saveMedia media) db0)
      host k (p2 ++ rest2) = (10, true) :=
    dedupScan_all_dup_trigger _ host p2 rest2 k hdup2 hk10 (by omega)
  have hp1 : p1.isEmpty = false := by
    cases p1 with
    | nil => simp at hlen1; omega
    | cons a l => rfl
  simp [auto_fetch_all, hff, runLoop, hf0, hf1, pageStep, pageNoff,
    pageItems, pageScan, pageMeta, dedupArmed, hitems1, hitems2, hscan1,
    hscan2, hp1, jval_truthy_null, reqParam, hoff1, hstop]

/-- Witness for C10 at the concrete split scenario: five duplicates per
page against the ten stored rows. -/
theorem c10_counter_spans_pages_witness :
    ((auto_fetch_all (fun i => if i == 0 then .ok bodyHalfA else .ok bodyHalfB)
        (fun _ => false) "7" true false (fun _ => ([], [])) 0 2
        ⟨0, .str "", true⟩ dbTen).outcome,
     (auto_fetch_all (fun i => if i == 0 then .ok bodyHalfA else .ok bodyHalfB)
        (fun _ => false) "7" true false (fun _ => ([], [])) 0 2
        ⟨0, .str "", true⟩ dbTen).state.page,
     (auto_fetch_all (fun i => if i == 0 then .ok bodyHalfA else .ok bodyHalfB)
        (fun _ => false) "7" true false (fun _ => ([], [])) 0 2
        ⟨0, .str "", true⟩ dbTen).state.cd,
     (auto_fetch_all (fun i => if i == 0 then .ok bodyHalfA else .ok bodyHalfB)
        (fun _ => false) "7" true false (fun _ => ([], [])) 0 2
        ⟨0, .str "", true⟩ dbTen).state.allItems,
     (auto_fetch_all (fun i => if i == 0 then .ok bodyHalfA else .ok bodyHalfB)
        (fun _ => false) "7" true false (fun _ => ([], [])) 0 2
        ⟨0, .str "", true⟩ dbTen).state.metaWrites) =
    (.completed, 2, 10,
      (List.range 5).map (fun i => idItem ("d" ++ toString i)),
      [⟨0, offsetOf bodyHalfA, false⟩, ⟨0, JVal.str "", true⟩]) := by
  have h := c10_counter_spans_pages
    (fun i => if i == 0 then .ok bodyHalfA else .ok bodyHalfB)
    (fun _ => false) "7" false (fun _ => ([], [])) 0 0 ⟨0, .str "", true⟩
    dbTen bodyHalfA bodyHalfB
    ((List.range 5).map (fun i => idItem ("d" ++ toString i)))
    ((List.range 5).map (fun i => idItem ("d" ++ toString (5 + i)))) [] 5
    rfl rfl rfl (by decide) (by decide) (by decide)
    (by
      intro x hx
      have hall : ((List.range 5).map (fun i => idItem ("d" ++ toString i))).all
          (fun x => isDupB dbTen "7" x) = true := by decide
      exact List.all_eq_true.mp hall x hx)
    (by decide) rfl rfl rfl (by decide)
    (by
      intro x hx
      have hall : ((List.range 5).map (fun i => idItem ("d" ++ toString (5 + i)))).all
          (fun x => isDupB
            ((((List.range 5).map (fun i => idItem ("d" ++ toString i))).foldl
              (ingestItem "7" 0 false (fun _ => ([], []))) dbTen)) "7" x) = true := by
        decide
      exact List.all_eq_true.mp hall x hx)
  simpa using h

theorem mem_insertUrl (acc : List String) (s u : String)
    (hu : u ∈ insertUrl acc s) : u ∈ acc ∨ u = s := by
  unfold insertUrl at hu
  split at hu
  · exact Or.inl hu
  · rcases List.mem_append.mp hu with h | h
    · exact Or.inl h
    · exact Or.inr (List.mem_singleton.mp h)

mutual
theorem mem_walk_collect (v : JVal) (path acc : List String) :
    ∀ u ∈ _walk_collect_urls v path acc, u ∈ acc ∨ collectedUrlOk u = true := by
  intro u hu
  cases v with
  | obj fields =>
    simp only [_walk_collect_urls] at hu
    by_cases hex : (excludedPath (path.map strToLower) ||
        isEmojiNode (JVal.obj fields)) = true
    · rw [if_pos hex] at hu
      exact Or.inl hu
    · rw [if_neg hex] at hu
      exact mem_walk_fields fields path acc u hu
  | arr elems =>
    simp only [_walk_collect_urls] at hu
    by_cases hex : (excludedPath (path.map strToLower) ||
        isEmojiNode (JVal.arr elems)) = true
    · rw [if_pos hex] at hu
      exact Or.inl hu
    · rw [if_neg hex] at hu
      exact mem_walk_elems elems 0 path acc u hu
  | str s =>
    simp only [_walk_collect_urls] at hu
    by_cases hex : (excludedPath (path.map strToLower) ||
        isEmojiNode (JVal.str s)) = true
    · rw [if_pos hex] at hu
      exact Or.inl hu
    · rw [if_neg hex] at hu
      by_cases hlook : _looks_like_image_url s = true
      · rw [if_pos hlook] at hu
        by_cases hface : (strContainsSub (strToLower s) "/bfs/face/" ||
            strContainsSub (strToLower s) "/face/") = true
        · rw [if_pos hface] at hu
          exact Or.inl hu
        · rw [if_neg hface] at hu
          rcases mem_insertUrl acc s u hu with h | rfl
          · exact Or.inl h
          · refine Or.inr ?_
            simp only [Bool.not_eq_true, Bool.or_eq_false_iff] at hface
            simp [collectedUrlOk, hlook, hface.1, hface.2]
      · rw [if_neg hlook] at hu
        exact Or.inl hu
  | null =>
    simp only [_walk_collect_urls] at hu
    by_cases hex : (excludedPath (path.map strToLower) ||
        isEmojiNode JVal.null) = true
    · rw [if_pos hex] at hu
      exact Or.inl hu
    · rw [if_neg hex] at hu
      exact Or.inl hu
  | jbool b =>
    simp only [_walk_collect_urls] at hu
    by_cases hex : (excludedPath (path.map strToLower) ||
        isEmojiNode (JVal.jbool b)) = true
    · rw [if_pos hex] at hu
      exact Or.inl hu
    · rw [if_neg hex] at hu
      exact Or.inl hu
  | num n =>
    simp only [_walk_collect_urls] at hu
    by_cases hex : (excludedPath (path.map strToLower) ||
        isEmojiNode (JVal.num n)) = true
    · rw [if_pos hex] at hu
      exact Or.inl hu
    · rw [if_neg hex] at hu
      exact Or.inl hu

theorem mem_walk_fields (fields : List (String × JVal))
    (path acc : List String) :
    ∀ u ∈ walkFields fields path acc, u ∈ acc ∨ collectedUrlOk u = true := by
  intro u hu
  match fields with
  | [] =>
    rw [walkFields] at hu
    exact Or.inl hu
  | (k, v) :: rest =>
    rw [walkFields] at hu
    rcases mem_walk_fields rest path _ u hu with h | h
    · by_cases hk : skippedLabelKeys.contains (strToLower k)
      · rw [if_pos hk] at h
        exact Or.inl h
      · rw [if_neg hk] at h
        exact mem_walk_collect v (path ++ [k]) acc u h
    · exact Or.inr h

theorem mem_walk_elems (elems : List JVal) (idx : Nat)
    (path acc : List String) :
    ∀ u ∈ walkElems elems idx path acc, u ∈ acc ∨ collectedUrlOk u = true := by
  intro u hu
  match elems with
  | [] =>
    rw [walkElems] at hu
    exact Or.inl hu
  | v :: rest =>
    rw [walkElems] at hu
    rcases mem_walk_elems rest (idx + 1) path _ u hu with h | h
    · exact mem_walk_collect v (path ++ [toString idx]) acc u h
    · exact Or.inr h
end

/-- C9: a string is collected by `collect_image_urls` only when it is
an absolute http(s) URL with an image extension or the image-CDN
fragment and free of any face/avatar path fragment; the walk collects
nothing at or below a path whose ancestor keys include a
label/avatar/decoration-card/interaction key; and on the two reference
items, the avatar+label-only item yields no image and the item with one
qualifying image yields exactly that URL. -/
theorem c9_extractor_url_filter_and_exclusions :
    (∀ (item : JVal) (u : String), u ∈ collect_image_urls item →
      (_looks_like_image_url u = true ∧
       strContainsSub (strToLower u) "/bfs/face/" = false ∧
       strContainsSub (strToLower u) "/face/" = false)) ∧
    (∀ (v : JVal) (path acc : List String),
      excludedPath (path.map strToLower) = true →
      _walk_collect_urls v path acc = acc) ∧
    collect_image_urls itemAvatarLabel = [] ∧
    collect_image_urls itemOneImage =
      ["http://i0.hdslb.com/bfs/album/pic1.jpg"] := by
  refine ⟨?_, ?_, rfl, rfl⟩
  · intro item u hu
    rcases mem_walk_collect item [] [] u hu with h | h
    · cases h
    · simp only [collectedUrlOk, Bool.and_eq_true, Bool.not_eq_true'] at h
      exact ⟨h.1.1, h.1.2, h.2⟩
  · intro v path acc h
    cases v <;> simp [_walk_collect_urls, h]

/-- Witness for C9: the single collected URL of `itemOneImage`
satisfies the filter, and the walk collects nothing under a `label`
ancestor key. -/
theorem c9_extractor_url_filter_and_exclusions_witness :
    (_looks_like_image_url "http://i0.hdslb.com/bfs/album/pic1.jpg" = true ∧
     strContainsSub (strToLower "http://i0.hdslb.com/bfs/album/pic1.jpg")
       "/bfs/face/" = false ∧
     strContainsSub (strToLower "http://i0.hdslb.com/bfs/album/pic1.jpg")
       "/face/" = false) ∧
    _walk_collect_urls (.str "http://i0.hdslb.com/bfs/album/pic1.jpg")
      ["label"] [] = [] := by
  constructor
  · refine c9_extractor_url_filter_and_exclusions.1 itemOneImage _ ?_
    have hc : collect_image_urls itemOneImage =
        ["http://i0.hdslb.com/bfs/album/pic1.jpg"] := rfl
    rw [hc]
    exact List.mem_singleton.mpr rfl
  · exact c9_extractor_url_filter_and_exclusions.2.1 _ ["label"] []
      (by decide)

end BiliDyn
